import Mathlib

/-!
Verification development for the HackerOS installer sources
(`src/main.rs`, the main edition, and `gaming-edition/src/main.rs`).
External commands are modelled as structured operation records; process
exit statuses are supplied by an outcome oracle where the control flow of
the source can observe them.  File reads are modelled as `Option String`
inputs (`none` means the file is absent), and text consumed from already
fetched output (lspci listing, kernel marker file, CPU descriptor) is
passed as explicit string parameters.
-/

/-- Characterwise check that `pat` starts the list `s` (Rust slice prefix test,
used to build the substring test below). -/
def startsWithL : List Char → List Char → Bool
  | [], _ => true
  | _ :: _, [] => false
  | a :: as, b :: bs => a == b && startsWithL as bs

/-- `pat` occurs as a contiguous subsequence of `s`
(the semantics of Rust `str::contains` with a literal pattern). -/
def containsL (pat : List Char) : List Char → Bool
  | [] => startsWithL pat []
  | s :: rest => startsWithL pat (s :: rest) || containsL pat rest

/-- Rust `haystack.contains(needle)` for string literals: substring test. -/
def strContains (haystack needle : String) : Bool :=
  containsL needle.data haystack.data

theorem startsWithL_append {pat xs : List Char} (ys : List Char)
    (h : startsWithL pat xs = true) : startsWithL pat (xs ++ ys) = true := by
  induction pat generalizing xs with
  | nil => simp [startsWithL]
  | cons a as ih =>
    cases xs with
    | nil => simp [startsWithL] at h
    | cons b bs =>
      simp only [startsWithL, Bool.and_eq_true] at h
      simp only [List.cons_append, startsWithL, Bool.and_eq_true]
      exact ⟨h.1, ih h.2⟩

theorem containsL_append_left {pat xs : List Char} (ys : List Char)
    (h : containsL pat xs = true) : containsL pat (xs ++ ys) = true := by
  induction xs with
  | nil =>
    cases pat with
    | nil => cases ys <;> simp [containsL, startsWithL]
    | cons a as => simp [containsL, startsWithL] at h
  | cons b bs ih =>
    simp only [containsL, Bool.or_eq_true] at h
    simp only [List.cons_append, containsL, Bool.or_eq_true]
    rcases h with h | h
    · exact Or.inl (startsWithL_append ys h)
    · exact Or.inr (ih h)

/-- A substring found in `s` is still found in `s ++ t`. -/
theorem strContains_append_left (s t needle : String)
    (h : strContains s needle = true) : strContains (s ++ t) needle = true := by
  have hd : (s ++ t).data = s.data ++ t.data := rfl
  simpa [strContains, hd] using containsL_append_left t.data h

/-- One issued external operation: program name, argument list, and the
payload written to its stdin, if any (`Command::new(prog).arg(..)` /
`.stdin(Stdio::piped())` in the source). -/
structure Op where
  prog : String
  args : List String
  stdinData : Option String := none
deriving Repr, DecidableEq

namespace Gaming

/-- The fields of the gaming edition `InstallerState` that the installation
pipeline reads (`gaming-edition/src/main.rs`, `struct InstallerState`). -/
structure GState where
  username : String := ""
  password : String := ""
  country : String := "Poland"
  timezone : String := "Europe/Warsaw"
  is_uefi : Bool := false
  auto_partition : Bool := true
  target_disk : String := ""
  mount_point : String := "/mnt"
  desktop_env : String := "kde"
deriving Repr, DecidableEq

/-- `chroot <mnt> sh -c <cmd>` as issued by the `chroot_cmd` closures of the
gaming edition (`perform_installation`, `detect_and_install_gpu`,
`install_kernel`).  The closure discards the child's exit status
(`.output()?;` then `Ok(())`). -/
def gChroot (mnt cmd : String) : Op :=
  { prog := "chroot", args := [mnt, "sh", "-c", cmd] }

/-- The `parted ... mkpart ESP fat32 1MiB 513MiB` EFI-partition creation
issued by the UEFI branch of `perform_partitioning`. -/
def espMkpartOp (disk : String) : Op :=
  { prog := "parted", args := ["-s", disk, "mkpart", "ESP", "fat32", "1MiB", "513MiB"] }

/-- The `mkfs.fat -F32 <disk>1` FAT32 format of the EFI partition issued by
the UEFI branch of `perform_partitioning`. -/
def fat32FormatOp (disk : String) : Op :=
  { prog := "mkfs.fat", args := ["-F32", disk ++ "1"] }

/-- The `parted ... set 1 boot on` boot-flag operation issued by the BIOS
branch of `perform_partitioning`. -/
def bootFlagOp (disk : String) : Op :=
  { prog := "parted", args := ["-s", disk, "set", "1", "boot", "on"] }

/-- Operations issued by the UEFI automatic-partitioning branch of
`perform_partitioning` (gaming edition, lines 454-502), in source order.
The `fs::create_dir_all` call is a host filesystem write, not an external
operation, and is not an element of this list. -/
def uefiAutoOps (disk mnt : String) : List Op :=
  [ { prog := "parted", args := ["-s", disk, "mklabel", "gpt"] },
    espMkpartOp disk,
    { prog := "parted", args := ["-s", disk, "set", "1", "esp", "on"] },
    { prog := "parted", args := ["-s", disk, "mkpart", "root", "ext4", "513MiB", "100%"] },
    fat32FormatOp disk,
    { prog := "mkfs.ext4", args := [disk ++ "2"] },
    { prog := "mount", args := [disk ++ "2", mnt] },
    { prog := "mount", args := [disk ++ "1", mnt ++ "/boot"] } ]

/-- Operations issued by the BIOS automatic-partitioning branch of
`perform_partitioning` (gaming edition, lines 503-533), in source order. -/
def biosAutoOps (disk mnt : String) : List Op :=
  [ { prog := "parted", args := ["-s", disk, "mklabel", "msdos"] },
    { prog := "parted", args := ["-s", disk, "mkpart", "primary", "ext4", "1MiB", "100%"] },
    bootFlagOp disk,
    { prog := "mkfs.ext4", args := [disk ++ "1"] },
    { prog := "mount", args := [disk ++ "1", mnt] } ]

/-- `perform_partitioning` (gaming edition): the issued operations and the
progress markers appended, in order.  Manual mode issues no operation. -/
def perform_partitioning (s : GState) : List Op × List String :=
  if s.auto_partition then
    ((if s.is_uefi then uefiAutoOps s.target_disk s.mount_point
      else biosAutoOps s.target_disk s.mount_point),
     ["Partitioning disk...",
      "Auto partitioning done.",
      "Disk mounted."])
  else
    ([], ["Partitioning disk...",
          "Manual partitioning: please configure externally.",
          "Disk mounted."])

/-- The UEFI-specific bootloader arguments of the gaming edition
(`perform_installation`, lines 649-653). -/
def uefiGrubArgs : String :=
  "--target=x86_64-efi --efi-directory=/boot --bootloader-id=GRUB"

/-- The `grub-install` shell command built by `perform_installation`
(lines 649-654): `format!("grub-install {} {}", efi_opt, target)` where
`efi_opt` is the UEFI argument string when `is_uefi` and `""` otherwise. -/
def gBootCmd (is_uefi : Bool) (target : String) : String :=
  ("grub-install " ++ (if is_uefi then uefiGrubArgs else "") ++ " ") ++ target

/-- GPU vendors recognised by `detect_and_install_gpu`. -/
inductive GpuVendor
  | nvidia
  | amd
  | intel
deriving Repr, DecidableEq

/-- The `apt install` command issued for each detected vendor
(`detect_and_install_gpu`, lines 691, 695, 699). -/
def gpuInstallCmd : GpuVendor → String
  | .nvidia => "apt install -y nvidia-driver nvidia-kernel-dkms nvidia-smi libnvidia-ml1 nvidia-settings nvidia-cuda-mps"
  | .amd => "apt install -y firmware-amd-graphics"
  | .intel => "apt install -y intel-gpu-tools"

/-- The `gpu_type` string stored for each vendor. -/
def gpuTypeName : GpuVendor → String
  | .nvidia => "nvidia"
  | .amd => "amd"
  | .intel => "intel"

/-- The progress marker pushed for each vendor. -/
def gpuMarker : GpuVendor → String
  | .nvidia => "Detected NVIDIA GPU."
  | .amd => "Detected AMD GPU."
  | .intel => "Detected Intel GPU."

/-- `detect_and_install_gpu` (gaming edition, lines 674-703): runs `lspci` on
the host, then an if/else-if chain of case-sensitive substring tests on its
captured stdout (`lspci` here is that already-captured text).  Returns the
issued operations, the progress markers appended, and the stored
`gpu_type`. -/
def detect_and_install_gpu (mnt lspci : String) : List Op × List String × String :=
  if strContains lspci "NVIDIA" then
    ({ prog := "lspci", args := [] } :: [gChroot mnt (gpuInstallCmd .nvidia)],
     [gpuMarker .nvidia, "GPU drivers installed."], gpuTypeName .nvidia)
  else if strContains lspci "AMD" then
    ({ prog := "lspci", args := [] } :: [gChroot mnt (gpuInstallCmd .amd)],
     [gpuMarker .amd, "GPU drivers installed."], gpuTypeName .amd)
  else if strContains lspci "Intel" then
    ({ prog := "lspci", args := [] } :: [gChroot mnt (gpuInstallCmd .intel)],
     [gpuMarker .intel, "GPU drivers installed."], gpuTypeName .intel)
  else
    ([{ prog := "lspci", args := [] }], ["GPU drivers installed."], "")

/-- The fixed vendor priority order of the source's if/else-if chain. -/
def vendorPriority : List (String × GpuVendor) :=
  [("NVIDIA", .nvidia), ("AMD", .amd), ("Intel", .intel)]

/-- Modelled from the spec: vendor detection as "case-sensitive substring
match against known vendor strings, first match wins, checked in a fixed
priority order".  Used as the refinement target for
`detect_and_install_gpu`. -/
def firstVendorMatch (lspci : String) : Option GpuVendor :=
  (vendorPriority.find? fun p => strContains lspci p.1).map Prod.snd

/-- ASCII whitespace, the characters Rust `str::trim` strips from the
marker lines in practice (the marker file is ASCII text). -/
def isWsp (c : Char) : Bool :=
  c == ' ' || c == '\t' || c == '\n' || c == '\r'

/-- Rust `str::trim` on a character list: strip whitespace at both ends. -/
def trimL (l : List Char) : List Char :=
  ((l.dropWhile isWsp).reverse.dropWhile isWsp).reverse

/-- Split a character list at newline characters (the piece boundaries of
Rust `str::lines`; a trailing newline yields one extra empty piece, which
trims to `""` and never equals a bracketed marker). -/
def splitNl (acc : List Char) : List Char → List (List Char)
  | [] => [acc.reverse]
  | c :: cs => if c == '\n' then acc.reverse :: splitNl [] cs else splitNl (c :: acc) cs

/-- Rust `content.lines()` followed by per-line `trim`
(`install_kernel`, line 710): `content.lines().map(|l| l.trim().to_string())`.
Any `\r` left by `lines` at a line end is removed by the trim. -/
def markerLines (content : String) : List String :=
  (splitNl [] content.data).map fun l => String.mk (trimL l)

/-- The CPU-microarchitecture variant selection of `install_kernel`
(lines 736-744): an if/else-if substring chain over the fetched
descriptor, defaulting to `"x64v3"`. -/
def xanmodVariant (cpu : String) : String :=
  if strContains cpu "x86-64-v3" then "x64v3"
  else if strContains cpu "x86-64-v2" then "x64v2"
  else if strContains cpu "x86-64" then "x64v1"
  else "x64v3"

/-- Modelled from the spec: "select the highest microarchitecture level it
advertises (a hard priority order among variants, defaulting to the
highest when undetermined)" — known level substrings ordered from highest
to lowest, first advertised level wins, default is the highest variant. -/
def specHighestVariant (cpu : String) : String :=
  ((([("x86-64-v3", "x64v3"), ("x86-64-v2", "x64v2"), ("x86-64", "x64v1")].find?
      fun p => strContains cpu p.1).map Prod.snd).getD "x64v3")

/-- A file read (`fs::read_to_string`) modelled on optional content:
`none` (file absent) yields the error that `?` propagates. -/
def readFileOpt (msg : String) : Option String → Except String String
  | some s => Except.ok s
  | none => Except.error msg

/-- Result of a successful `install_kernel` run. -/
structure KernelRun where
  ops : List Op
  progress : List String
  kernel_type : String
deriving Repr, DecidableEq

/-- The download URL passed to `wget` for the xanmod CPU descriptor. -/
def xanmodCpuUrl : String :=
  "https://github.com/HackerOS-Linux-System/Hacker-Lang/blob/main/hacker-packages/xanmod-cpu.hacker?raw=true"

/-- `install_kernel` (gaming edition, lines 705-756).  `markerFile` is the
content of `<mnt>/usr/share/HackerOS/Archived/kernel.hacker` (`none` when
the file is absent — `fs::read_to_string(..)?` then propagates an error),
`cpuFile` the content of the wget-fetched descriptor (read only on the
xanmod path).  Exit statuses of issued commands are discarded by the
source and so do not appear here. -/
def install_kernel (mnt : String) (markerFile cpuFile : Option String) :
    Except String KernelRun := do
  let content ← readFileOpt "read kernel.hacker: No such file or directory" markerFile
  let lines := markerLines content
  if lines.contains "[liquorix]" then
    pure { ops :=
            [gChroot mnt "curl -s \x27https://liquorix.net/install-liquorix.sh\x27 | bash",
             gChroot mnt "apt remove -y linux-image-*generic",
             gChroot mnt "update-grub"],
           progress := ["Kernel installed."], kernel_type := "liquorix" }
  else if lines.contains "[xanmod]" then
    let cpu ← readFileOpt "read xanmod-cpu.hacker: No such file or directory" cpuFile
    let variant := xanmodVariant cpu
    pure { ops :=
            { prog := "wget", args := ["-O", mnt ++ "/tmp/xanmod-cpu.hacker", xanmodCpuUrl] } ::
            [gChroot mnt "wget -qO - https://dl.xanmod.org/archive.key | gpg --dearmor -vo /etc/apt/keyrings/xanmod-archive-keyring.gpg",
             gChroot mnt "echo \x27deb [signed-by=/etc/apt/keyrings/xanmod-archive-keyring.gpg] http://deb.xanmod.org $(lsb_release -sc) main\x27 | tee /etc/apt/sources.list.d/xanmod-release.list",
             gChroot mnt "apt update",
             gChroot mnt ("apt install -y linux-xanmod-lts-" ++ variant),
             gChroot mnt "apt remove -y linux-image-*generic",
             gChroot mnt "update-grub"],
           progress := ["Kernel installed."], kernel_type := "xanmod" }
  else
    pure { ops := [], progress := ["Kernel installed."], kernel_type := "" }

end Gaming

/-- C5: vendor detection is a case-sensitive substring match in the fixed
priority order NVIDIA, AMD, Intel — at most one vendor is selected, the
first in priority order wins when several vendor strings are present (in
particular a listing with both NVIDIA and Intel selects NVIDIA) — and the
pipeline installs exactly that vendor's driver package set. -/
theorem C5_gpu_vendor_priority (mnt lspci : String) :
    ((Gaming.detect_and_install_gpu mnt lspci).1
      = { prog := "lspci", args := [] } ::
        ((Gaming.firstVendorMatch lspci).elim []
          fun v => [Gaming.gChroot mnt (Gaming.gpuInstallCmd v)])
    ∧ (Gaming.detect_and_install_gpu mnt lspci).2.2
      = ((Gaming.firstVendorMatch lspci).elim "" Gaming.gpuTypeName))
    ∧ Gaming.firstVendorMatch "00:02.0 VGA: Intel UHD; 01:00.0 3D: NVIDIA GeForce"
        = some Gaming.GpuVendor.nvidia := by
  constructor
  · by_cases h1 : strContains lspci "NVIDIA"
    · simp [Gaming.detect_and_install_gpu, Gaming.firstVendorMatch,
        Gaming.vendorPriority, List.find?, h1]
    · by_cases h2 : strContains lspci "AMD"
      · simp [Gaming.detect_and_install_gpu, Gaming.firstVendorMatch,
          Gaming.vendorPriority, List.find?, h1, h2]
      · by_cases h3 : strContains lspci "Intel"
        · simp [Gaming.detect_and_install_gpu, Gaming.firstVendorMatch,
            Gaming.vendorPriority, List.find?, h1, h2, h3]
        · simp [Gaming.detect_and_install_gpu, Gaming.firstVendorMatch,
            Gaming.vendorPriority, List.find?, h1, h2, h3]
  · decide

/-- C6: on the xanmod path, the selected microarchitecture variant is the
highest level advertised by the fetched descriptor (v3 when both v2 and v3
substrings occur, and the highest by default when no known level substring
occurs), and the `apt install` of that variant is followed immediately by
the removal of the default kernel package. -/
theorem C6_xanmod_highest_level (mnt marker cpu : String)
    (hliq : "[liquorix]" ∉ Gaming.markerLines marker)
    (hxan : "[xanmod]" ∈ Gaming.markerLines marker) :
    Gaming.install_kernel mnt (some marker) (some cpu)
      = Except.ok
        { ops :=
            { prog := "wget", args := ["-O", mnt ++ "/tmp/xanmod-cpu.hacker", Gaming.xanmodCpuUrl] } ::
            [Gaming.gChroot mnt "wget -qO - https://dl.xanmod.org/archive.key | gpg --dearmor -vo /etc/apt/keyrings/xanmod-archive-keyring.gpg",
             Gaming.gChroot mnt "echo \x27deb [signed-by=/etc/apt/keyrings/xanmod-archive-keyring.gpg] http://deb.xanmod.org $(lsb_release -sc) main\x27 | tee /etc/apt/sources.list.d/xanmod-release.list",
             Gaming.gChroot mnt "apt update",
             Gaming.gChroot mnt ("apt install -y linux-xanmod-lts-" ++ Gaming.xanmodVariant cpu),
             Gaming.gChroot mnt "apt remove -y linux-image-*generic",
             Gaming.gChroot mnt "update-grub"],
          progress := ["Kernel installed."], kernel_type := "xanmod" }
    ∧ Gaming.xanmodVariant cpu = Gaming.specHighestVariant cpu
    ∧ Gaming.xanmodVariant "flags: x86-64-v2 x86-64-v3" = "x64v3"
    ∧ Gaming.xanmodVariant "no recognised level here" = "x64v3" := by
  refine ⟨?_, ?_, by decide, by decide⟩
  · simp [Gaming.install_kernel, Gaming.readFileOpt, Bind.bind, Except.bind, Pure.pure, Except.pure, hliq, hxan]
  · by_cases h3 : strContains cpu "x86-64-v3"
    · simp [Gaming.xanmodVariant, Gaming.specHighestVariant, List.find?, h3]
    · by_cases h2 : strContains cpu "x86-64-v2"
      · simp [Gaming.xanmodVariant, Gaming.specHighestVariant, List.find?, h3, h2]
      · by_cases h1 : strContains cpu "x86-64"
        · simp [Gaming.xanmodVariant, Gaming.specHighestVariant, List.find?, h3, h2, h1]
        · simp [Gaming.xanmodVariant, Gaming.specHighestVariant, List.find?, h3, h2, h1]

/-- Witness for C6 at a concrete marker file and descriptor containing both
level substrings. -/
theorem C6_xanmod_highest_level_witness :
    ("[liquorix]" ∉ Gaming.markerLines "[xanmod]"
      ∧ "[xanmod]" ∈ Gaming.markerLines "[xanmod]")
    ∧ (Gaming.install_kernel "/mnt" (some "[xanmod]") (some "flags: x86-64-v2 x86-64-v3")
        = Except.ok
          { ops :=
              { prog := "wget", args := ["-O", "/mnt" ++ "/tmp/xanmod-cpu.hacker", Gaming.xanmodCpuUrl] } ::
              [Gaming.gChroot "/mnt" "wget -qO - https://dl.xanmod.org/archive.key | gpg --dearmor -vo /etc/apt/keyrings/xanmod-archive-keyring.gpg",
               Gaming.gChroot "/mnt" "echo \x27deb [signed-by=/etc/apt/keyrings/xanmod-archive-keyring.gpg] http://deb.xanmod.org $(lsb_release -sc) main\x27 | tee /etc/apt/sources.list.d/xanmod-release.list",
               Gaming.gChroot "/mnt" "apt update",
               Gaming.gChroot "/mnt" ("apt install -y linux-xanmod-lts-" ++ Gaming.xanmodVariant "flags: x86-64-v2 x86-64-v3"),
               Gaming.gChroot "/mnt" "apt remove -y linux-image-*generic",
               Gaming.gChroot "/mnt" "update-grub"],
            progress := ["Kernel installed."], kernel_type := "xanmod" }
      ∧ Gaming.xanmodVariant "flags: x86-64-v2 x86-64-v3"
          = Gaming.specHighestVariant "flags: x86-64-v2 x86-64-v3"
      ∧ Gaming.xanmodVariant "flags: x86-64-v2 x86-64-v3" = "x64v3"
      ∧ Gaming.xanmodVariant "no recognised level here" = "x64v3") :=
  ⟨⟨by decide, by decide⟩,
   C6_xanmod_highest_level "/mnt" "[xanmod]" "flags: x86-64-v2 x86-64-v3"
     (by decide) (by decide)⟩

/-- C7 counterexample: with the kernel marker file absent from the target,
`install_kernel` does not behave as "default kernel" — the failed read
propagates and the run fails, contradicting the claim that the pipeline
does not fail on that account. -/
theorem C7_counterexample_marker_absent :
    Gaming.install_kernel "/mnt" none none
      = Except.error "read kernel.hacker: No such file or directory" := rfl

/-- C7 amended: when the marker file is present but contains no recognized
bracketed marker line, the kernel phase installs no alternate kernel,
removes nothing, appends only its completion marker and succeeds; an
absent marker file instead aborts the run with a read error. -/
theorem C7_unrecognized_marker_default (mnt content : String)
    (cpuFile : Option String)
    (hliq : "[liquorix]" ∉ Gaming.markerLines content)
    (hxan : "[xanmod]" ∉ Gaming.markerLines content) :
    Gaming.install_kernel mnt (some content) cpuFile
      = Except.ok { ops := [], progress := ["Kernel installed."], kernel_type := "" } := by
  simp [Gaming.install_kernel, Gaming.readFileOpt, Bind.bind, Except.bind, Pure.pure, Except.pure, hliq, hxan]

/-- Witness for the amended C7 at a concrete marker file with no recognized
marker line. -/
theorem C7_unrecognized_marker_default_witness :
    ("[liquorix]" ∉ Gaming.markerLines "# no kernel choice"
      ∧ "[xanmod]" ∉ Gaming.markerLines "# no kernel choice")
    ∧ Gaming.install_kernel "/mnt" (some "# no kernel choice") none
        = Except.ok { ops := [], progress := ["Kernel installed."], kernel_type := "" } :=
  ⟨⟨by decide, by decide⟩,
   C7_unrecognized_marker_default "/mnt" "# no kernel choice" none (by decide) (by decide)⟩

/-- C2: with automatic partitioning, the UEFI firmware mode makes the gaming
pipeline issue the EFI-partition creation, the FAT32 format of that
partition, and UEFI-specific bootloader arguments; in BIOS mode none of
those three operations occur and the boot flag is set on the partition
instead. -/
theorem C2_uefi_bios_branching (disk mnt : String) :
    (Gaming.espMkpartOp disk ∈
        (Gaming.perform_partitioning
          { is_uefi := true, auto_partition := true,
            target_disk := disk, mount_point := mnt }).1
      ∧ Gaming.fat32FormatOp disk ∈
        (Gaming.perform_partitioning
          { is_uefi := true, auto_partition := true,
            target_disk := disk, mount_point := mnt }).1
      ∧ strContains (Gaming.gBootCmd true disk) "--target=x86_64-efi" = true)
    ∧ (Gaming.espMkpartOp disk ∉
        (Gaming.perform_partitioning
          { is_uefi := false, auto_partition := true,
            target_disk := disk, mount_point := mnt }).1
      ∧ ((Gaming.perform_partitioning
          { is_uefi := false, auto_partition := true,
            target_disk := disk, mount_point := mnt }).1.all
            (fun o => o.prog != "mkfs.fat")) = true
      ∧ Gaming.gBootCmd false disk = "grub-install  " ++ disk
      ∧ Gaming.bootFlagOp disk ∈
        (Gaming.perform_partitioning
          { is_uefi := false, auto_partition := true,
            target_disk := disk, mount_point := mnt }).1) := by
  refine ⟨⟨?_, ?_, ?_⟩, ?_, ?_, ?_, ?_⟩
  · simp [Gaming.perform_partitioning, Gaming.uefiAutoOps]
  · simp [Gaming.perform_partitioning, Gaming.uefiAutoOps]
  · exact strContains_append_left _ disk "--target=x86_64-efi" (by decide)
  · simp [Gaming.perform_partitioning, Gaming.biosAutoOps, Gaming.espMkpartOp,
      Gaming.bootFlagOp, Op.mk.injEq]
  · simp [Gaming.perform_partitioning, Gaming.biosAutoOps, Gaming.espMkpartOp,
      Gaming.bootFlagOp, Gaming.fat32FormatOp]
  · show ("grub-install " ++ "" ++ " ") ++ disk = "grub-install  " ++ disk
    exact congrArg (fun s => s ++ disk) (by decide)
  · simp [Gaming.perform_partitioning, Gaming.biosAutoOps]

namespace Gaming

/-- Size bound of Rust `usize` on the 64-bit targets this installer runs
on. -/
def USIZE : Nat := 2 ^ 64

/-- Rust release-mode `usize` subtraction `a - b` for `b ≤ 2^64`: wraps
modulo `2^64` on underflow. -/
def wrapSub (a b : Nat) : Nat :=
  (a + USIZE - b) % USIZE

/-- Key codes distinguished by `handle_key_event` in the disk-selection
arm. -/
inductive GKey
  | up
  | down
  | enter
  | charKey (c : Char)
  | other
deriving Repr, DecidableEq

/-- The fields of the gaming edition `InstallerState` read and written by
the disk-selection arm of `handle_key_event` (lines 358-377). -/
structure DiskSel where
  disks : List String
  selected_disk : Nat
  disk_selected : Bool
  target_disk : String
deriving Repr, DecidableEq

/-- The prefix of a character list before the first space: Rust
`s.split(' ').next().unwrap()` returns the whole string when it has no
space. -/
def takeUntilSpace : List Char → List Char
  | [] => []
  | c :: cs => if c == ' ' then [] else c :: takeUntilSpace cs

/-- The disk-selection arm of `handle_key_event` (gaming edition, lines
358-377), `disk_selected = false` case.  `Up` is `saturating_sub` (Nat
monus); `Down` compares against `disks.len() - 1` computed with
release-mode wrapping subtraction; `Enter` is guarded by a non-empty disk
list and then indexes `disks[selected_disk]`, which panics out of range
(modelled as `Except.error`). -/
def handleDiskKey (code : GKey) (s : DiskSel) : Except String DiskSel :=
  match code with
  | .up => Except.ok { s with selected_disk := s.selected_disk - 1 }
  | .down =>
      if s.selected_disk < wrapSub s.disks.length 1 then
        Except.ok { s with selected_disk := s.selected_disk + 1 }
      else
        Except.ok s
  | .enter =>
      if s.disks.isEmpty then Except.ok s
      else if h : s.selected_disk < s.disks.length then
        Except.ok { s with
          target_disk := String.mk (takeUntilSpace (s.disks.get ⟨s.selected_disk, h⟩).data),
          disk_selected := true }
      else Except.error "index out of bounds: disks"
  | _ => Except.ok s

/-- The desktop-selection list cursor of the gaming edition
(`handle_key_event`, lines 395-401): `Up` maps `None` to 0 and clamps at
0, `Down` maps `None` to 2 and clamps at 2 (the list has 3 items). -/
def desktopSelUp (sel : Option Nat) : Nat :=
  match sel with
  | none => 0
  | some i => if i > 0 then i - 1 else 0

/-- `Down` companion of `desktopSelUp`. -/
def desktopSelDown (sel : Option Nat) : Nat :=
  match sel with
  | none => 2
  | some i => if i < 2 then i + 1 else 2

end Gaming

namespace MainEd

/-- `update_list_selection` (src/main.rs, lines 184-189):
`selected = (selected as isize + delta).max(0) as usize` — the cursor is
clamped at 0 but against no upper bound; `None` is left unchanged. -/
def update_list_selection (sel : Option Nat) (delta : Int) : Option Nat :=
  sel.map fun i => (max ((i : Int) + delta) 0).toNat

/-- The three items of the Debian-branch list step
(`draw_branch_selection`, lines 397-401). -/
def branchItems : List String :=
  ["Stable (trixie)", "Testing (forky)", "Unstable (sid)"]

end MainEd

/-- C10 counterexample: on a state whose detected disk list is empty, a Down
event evaluates `disks.len() - 1` with `len() = 0 < 1`, so the subtraction
underflows (wrapping to `2^64 - 1` in release builds, a panic in debug
builds), and the cursor moves to 1, outside the valid range `[0, itemCount-1]`
of the empty list — refuting the claim that Down never underflows the
cursor-bound computation. -/
theorem C10_counterexample_down_underflow :
    (([] : List String).length < 1)
    ∧ Gaming.wrapSub 0 1 = 2 ^ 64 - 1
    ∧ Gaming.handleDiskKey Gaming.GKey.down
        { disks := [], selected_disk := 0, disk_selected := false, target_disk := "" }
      = Except.ok
        { disks := [], selected_disk := 1, disk_selected := false, target_disk := "" } := by
  refine ⟨by decide, by norm_num [Gaming.wrapSub, Gaming.USIZE], ?_⟩
  rfl

/-- C10 amended: an Enter event with an empty disk list leaves the state
unchanged, and whenever the cursor is in range of a (necessarily
non-empty) disk list shorter than `2^64`, every key event keeps it in
range and leaves the disk list unchanged. -/
theorem C10_disk_key_enter_and_bounds :
    (∀ s : Gaming.DiskSel, s.disks = [] →
      Gaming.handleDiskKey Gaming.GKey.enter s = Except.ok s)
    ∧ (∀ (s : Gaming.DiskSel) (code : Gaming.GKey),
        s.disks.length < Gaming.USIZE →
        s.selected_disk < s.disks.length →
        ∃ t, Gaming.handleDiskKey code s = Except.ok t
          ∧ t.selected_disk < s.disks.length ∧ t.disks = s.disks) := by
  constructor
  · intro s hs
    simp [Gaming.handleDiskKey, hs, List.isEmpty]
  · intro s code hlen hsel
    have hpos : 1 ≤ s.disks.length := by omega
    cases code with
    | up =>
      exact ⟨_, rfl, Nat.lt_of_le_of_lt (Nat.sub_le _ _) hsel, rfl⟩
    | down =>
      have hww : Gaming.wrapSub s.disks.length 1 = s.disks.length - 1 := by
        unfold Gaming.wrapSub
        have h1 : s.disks.length + Gaming.USIZE - 1 = Gaming.USIZE + (s.disks.length - 1) := by
          omega
        rw [h1, Nat.add_mod_left]
        exact Nat.mod_eq_of_lt (by omega)
      by_cases hlt : s.selected_disk < Gaming.wrapSub s.disks.length 1
      · refine ⟨{ s with selected_disk := s.selected_disk + 1 }, ?_, ?_, rfl⟩
        · simp [Gaming.handleDiskKey, hlt]
        · show s.selected_disk + 1 < s.disks.length
          rw [hww] at hlt
          omega
      · refine ⟨s, ?_, hsel, rfl⟩
        simp [Gaming.handleDiskKey, hlt]
    | enter =>
      have hne : s.disks.isEmpty = false := by
        cases hd : s.disks with
        | nil => rw [hd] at hsel; simp at hsel
        | cons a l => simp [List.isEmpty]
      refine ⟨{ s with
          target_disk :=
            String.mk (Gaming.takeUntilSpace (s.disks.get ⟨s.selected_disk, hsel⟩).data),
          disk_selected := true }, ?_, hsel, rfl⟩
      simp [Gaming.handleDiskKey, hne, hsel, List.get_eq_getElem]
    | charKey c =>
      exact ⟨s, rfl, hsel, rfl⟩
    | other =>
      exact ⟨s, rfl, hsel, rfl⟩

/-- Witness for the amended C10 at an empty and at a one-element disk
list. -/
theorem C10_disk_key_enter_and_bounds_witness :
    (Gaming.handleDiskKey Gaming.GKey.enter
        { disks := [], selected_disk := 0, disk_selected := false, target_disk := "" }
      = Except.ok
        { disks := [], selected_disk := 0, disk_selected := false, target_disk := "" })
    ∧ (([("/dev/sda (100G)" : String)].length < Gaming.USIZE)
      ∧ ∃ t, Gaming.handleDiskKey Gaming.GKey.down
            { disks := ["/dev/sda (100G)"], selected_disk := 0,
              disk_selected := false, target_disk := "" }
          = Except.ok t
        ∧ t.selected_disk < [("/dev/sda (100G)" : String)].length
        ∧ t.disks = ["/dev/sda (100G)"]) :=
  ⟨C10_disk_key_enter_and_bounds.1 _ rfl,
   by norm_num [Gaming.USIZE],
   C10_disk_key_enter_and_bounds.2
     { disks := ["/dev/sda (100G)"], selected_disk := 0,
       disk_selected := false, target_disk := "" }
     Gaming.GKey.down (by norm_num [Gaming.USIZE]) (by decide)⟩

/-- A `max` with 0 disappears under `Int.toNat`, which already clamps
negative values to 0. -/
theorem toNat_max_zero (x : Int) : (max x 0).toNat = x.toNat := by
  rcases le_total x 0 with h | h
  · rw [max_eq_right h]
    omega
  · rw [max_eq_left h]

/-- C8 counterexample: in the main edition, a Down event at the last index
of the three-item branch list moves the cursor to 3, outside
`[0, itemCount-1]` — `update_list_selection` clamps only the lower end, so
the claim that the cursor never leaves the range fails. -/
theorem C8_counterexample_no_upper_clamp :
    MainEd.update_list_selection (some (MainEd.branchItems.length - 1)) 1
      = some MainEd.branchItems.length
    ∧ ¬(MainEd.branchItems.length ≤ MainEd.branchItems.length - 1) := by
  constructor
  · decide
  · decide

/-- C8 amended: both editions clamp the cursor at the lower end 0 (an up
event at 0 leaves it unchanged); the gaming edition's desktop list also
clamps the upper end at itemCount-1 = 2 (a down event at 2 leaves it
unchanged); but the main edition's `update_list_selection` increments
without any upper bound. -/
theorem C8_cursor_clamping :
    (∀ n : Nat, MainEd.update_list_selection (some n) (-1) = some (n - 1))
    ∧ MainEd.update_list_selection (some 0) (-1) = some 0
    ∧ (∀ n : Nat, MainEd.update_list_selection (some n) 1 = some (n + 1))
    ∧ (∀ i : Nat, i ≤ 2 →
        Gaming.desktopSelUp (some i) ≤ 2 ∧ Gaming.desktopSelDown (some i) ≤ 2)
    ∧ Gaming.desktopSelUp (some 0) = 0
    ∧ Gaming.desktopSelDown (some 2) = 2 := by
  refine ⟨?_, by decide, ?_, ?_, by decide, by decide⟩
  · intro n
    show some ((max ((n : Int) + -1) 0).toNat) = some (n - 1)
    rw [toNat_max_zero]
    exact congrArg some (by omega)
  · intro n
    show some ((max ((n : Int) + 1) 0).toNat) = some (n + 1)
    rw [toNat_max_zero]
    exact congrArg some (by omega)
  · intro i hi
    interval_cases i <;> exact ⟨by decide, by decide⟩

/-- Witness for C8 at the upper boundary index of the gaming desktop
list. -/
theorem C8_cursor_clamping_witness :
    (2 ≤ 2)
    ∧ (Gaming.desktopSelUp (some 2) ≤ 2 ∧ Gaming.desktopSelDown (some 2) ≤ 2) :=
  ⟨Nat.le_refl 2, C8_cursor_clamping.2.2.2.1 2 (Nat.le_refl 2)⟩

namespace MainEd

/-- Editions offered at wizard step 4 (src/main.rs, `enum Edition`). -/
inductive Edition
  | Official
  | Gnome
  | Xfce
  | Blue
  | Hydra
  | Cybersecurity
  | Wayfire
  | Atomic
deriving Repr, DecidableEq

/-- Debian branches offered at wizard step 5 (`enum DebianBranch`). -/
inductive DebianBranch
  | Stable
  | Testing
  | Unstable
deriving Repr, DecidableEq

/-- Filesystems offered at wizard step 6 (`enum Filesystem`). -/
inductive Filesystem
  | Btrfs
  | Ext4
  | Zfs
deriving Repr, DecidableEq

/-- Input events distinguished by the key-event loop of `run_app`
(src/main.rs, lines 126-165).  `ctrlQ` is `Char('q')` with the CONTROL
modifier. -/
inductive WEvent
  | ctrlQ
  | enter
  | up
  | down
  | charKey (c : Char)
  | backspace
  | esc
  | other
deriving Repr, DecidableEq, BEq

/-- The main edition `InstallerState` (src/main.rs, lines 51-68) together
with the mutable locals of `run_app`'s loop that the transition logic
threads (`list_state` selection, `input_buffer`, `active_input`). -/
structure WState where
  current_step : Nat
  username : String
  password : String
  root_password : String
  hostname : String
  edition : Option Edition
  branch : Option DebianBranch
  filesystem : Option Filesystem
  manual_partition : Bool
  disk : String
  preview_image : Bool
  quit : Bool
  error_message : Option String
  timezone : String
  locale : String
  list_sel : Option Nat
  active_input : Bool
  input_buffer : String
deriving Repr, DecidableEq

/-- `InstallerState::default()` (lines 70-90) plus the initial loop locals
of `run_app` (lines 119-121). -/
def wInit : WState :=
  { current_step := 0, username := "", password := "", root_password := "",
    hostname := "hackeros", edition := none, branch := none, filesystem := none,
    manual_partition := false, disk := "", preview_image := false, quit := false,
    error_message := none, timezone := "UTC", locale := "en_US.UTF-8",
    list_sel := none, active_input := false, input_buffer := "" }

/-- The edition denoted by a list index at step 4
(`handle_selection_enter`, lines 196-205); `none` is the `_ => return`
arm. -/
def editionOfIdx : Nat → Option Edition
  | 0 => some .Official
  | 1 => some .Gnome
  | 2 => some .Xfce
  | 3 => some .Blue
  | 4 => some .Hydra
  | 5 => some .Cybersecurity
  | 6 => some .Wayfire
  | 7 => some .Atomic
  | _ => none

/-- The branch denoted by a list index at step 5 (lines 216-220). -/
def branchOfIdx : Nat → Option DebianBranch
  | 0 => some .Stable
  | 1 => some .Testing
  | 2 => some .Unstable
  | _ => none

/-- The filesystem denoted by a list index at step 6 (lines 228-232). -/
def fsOfIdx : Nat → Option Filesystem
  | 0 => some .Btrfs
  | 1 => some .Ext4
  | 2 => some .Zfs
  | _ => none

/-- The timezone committed by a list index at step 10 (lines 248-254);
the catch-all arm yields `"UTC"` and still advances. -/
def tzOfIdx : Nat → String
  | 0 => "UTC"
  | 1 => "America/New_York"
  | 2 => "Europe/Warsaw"
  | _ => "UTC"

/-- The locale committed by a list index at step 11 (lines 260-264). -/
def localeOfIdx : Nat → String
  | 0 => "en_US.UTF-8"
  | 1 => "pl_PL.UTF-8"
  | _ => "en_US.UTF-8"

/-- `handle_selection_enter` (src/main.rs, lines 191-277).  Every arm falls
through to `list_state.select(None)` except the `_ => return Ok(())` arms
reached on an out-of-range list index, which leave the selection as is. -/
def handleSelectionEnter (s : WState) : WState :=
  if s.current_step = 0 then
    { s with current_step := s.current_step + 1, list_sel := none }
  else if s.current_step = 4 then
    match s.list_sel with
    | none => { s with list_sel := none }
    | some sel =>
      match editionOfIdx sel with
      | none => s
      | some ed =>
        { s with edition := some ed,
                 filesystem := if ed = Edition.Atomic then some Filesystem.Btrfs else s.filesystem,
                 preview_image := true,
                 current_step := s.current_step + 1, list_sel := none }
  else if s.current_step = 5 then
    match s.list_sel with
    | none => { s with list_sel := none }
    | some sel =>
      match branchOfIdx sel with
      | none => s
      | some b =>
        { s with branch := some b, current_step := s.current_step + 1, list_sel := none }
  else if s.current_step = 6 then
    if s.edition ≠ some Edition.Atomic then
      match s.list_sel with
      | none => { s with list_sel := none }
      | some sel =>
        match fsOfIdx sel with
        | none => s
        | some f =>
          { s with filesystem := some f, current_step := s.current_step + 1, list_sel := none }
    else
      { s with current_step := s.current_step + 1, list_sel := none }
  else if s.current_step = 7 then
    match s.list_sel with
    | none => { s with list_sel := none }
    | some sel =>
      { s with manual_partition := sel == 1, current_step := s.current_step + 1, list_sel := none }
  else if s.current_step = 10 then
    match s.list_sel with
    | none => { s with list_sel := none }
    | some sel =>
      { s with timezone := tzOfIdx sel, current_step := s.current_step + 1, list_sel := none }
  else if s.current_step = 11 then
    match s.list_sel with
    | none => { s with list_sel := none }
    | some sel =>
      { s with locale := localeOfIdx sel, current_step := s.current_step + 1, list_sel := none }
  else if s.current_step = 12 then
    { s with current_step := s.current_step + 1, list_sel := none }
  else
    { s with active_input := true, input_buffer := "", list_sel := none }

/-- `handle_input_enter` (src/main.rs, lines 279-300): the outer guard
requires a non-empty buffer, so the inner empty-buffer hostname-default
branch at step 9 is unreachable; it is kept verbatim. -/
def handleInputEnter (s : WState) : WState :=
  if s.input_buffer = "" then
    s
  else
    let s1 :=
      if s.current_step = 1 then
        { s with username := s.input_buffer, current_step := s.current_step + 1 }
      else if s.current_step = 2 then
        { s with password := s.input_buffer, current_step := s.current_step + 1 }
      else if s.current_step = 3 then
        { s with root_password := s.input_buffer, current_step := s.current_step + 1 }
      else if s.current_step = 8 then
        { s with disk := s.input_buffer, current_step := s.current_step + 1 }
      else if s.current_step = 9 then
        if s.input_buffer = "" then
          { s with hostname := "hackeros", current_step := s.current_step + 1 }
        else
          { s with hostname := s.input_buffer, current_step := s.current_step + 1 }
      else s
    { s1 with active_input := false, input_buffer := "" }

/-- Rust `String::pop`: drop the final character of the buffer. -/
def strPop (s : String) : String :=
  String.mk s.data.dropLast

/-- The wizard steps whose draw function is a stateful list
(`draw_ui`, lines 316-331: steps 4, 5, 6 except for the Atomic edition,
7, 10 and 11). -/
def isListStep (s : WState) : Bool :=
  s.current_step == 4 || s.current_step == 5
    || (s.current_step == 6 && !(s.edition == some Edition.Atomic))
    || s.current_step == 7 || s.current_step == 10 || s.current_step == 11

/-- The selection initialisation every list draw function performs before
the next event is read (`if list_state.selected().is_none() {
list_state.select(Some(0)); }`). -/
def drawFix (s : WState) : WState :=
  if isListStep s && s.list_sel == none then { s with list_sel := some 0 } else s

/-- The key dispatch of `run_app` (src/main.rs, lines 128-164). -/
def handleKey (e : WEvent) (s : WState) : WState :=
  match e with
  | .ctrlQ => { s with quit := true }
  | .enter => if s.active_input then handleInputEnter s else handleSelectionEnter s
  | .up => if !s.active_input then { s with list_sel := update_list_selection s.list_sel (-1) } else s
  | .down => if !s.active_input then { s with list_sel := update_list_selection s.list_sel 1 } else s
  | .charKey c => if s.active_input then { s with input_buffer := s.input_buffer.push c } else s
  | .backspace => if s.active_input then { s with input_buffer := strPop s.input_buffer } else s
  | .esc => { s with active_input := false, input_buffer := "" }
  | .other => s

/-- One iteration of the `run_app` loop: the draw pass (which may
initialise a list selection) followed by the key-event handling. -/
def wStep (e : WEvent) (s : WState) : WState :=
  handleKey e (drawFix s)

/-- Fold a sequence of input events from a starting state. -/
def wRun (s : WState) (evs : List WEvent) : WState :=
  evs.foldl (fun t e => wStep e t) s

theorem drawFix_step (s : WState) : (drawFix s).current_step = s.current_step := by
  unfold drawFix
  split <;> rfl

theorem selEnter_step (s : WState) :
    s.current_step ≤ (handleSelectionEnter s).current_step
      ∧ (handleSelectionEnter s).current_step ≤ s.current_step + 1 := by
  unfold handleSelectionEnter
  repeat' split
  all_goals simp_arith

theorem inputEnter_step (s : WState) :
    s.current_step ≤ (handleInputEnter s).current_step
      ∧ (handleInputEnter s).current_step ≤ s.current_step + 1 := by
  unfold handleInputEnter
  repeat' split
  all_goals simp_arith

theorem handleKey_step (e : WEvent) (s : WState) :
    s.current_step ≤ (handleKey e s).current_step
      ∧ (handleKey e s).current_step ≤ s.current_step + 1 := by
  cases e with
  | enter =>
    simp only [handleKey]
    split
    · exact inputEnter_step s
    · exact selEnter_step s
  | ctrlQ =>
    simp only [handleKey]
    exact ⟨Nat.le_refl _, Nat.le_succ _⟩
  | up =>
    simp only [handleKey]
    split <;> exact ⟨Nat.le_refl _, Nat.le_succ _⟩
  | down =>
    simp only [handleKey]
    split <;> exact ⟨Nat.le_refl _, Nat.le_succ _⟩
  | charKey c =>
    simp only [handleKey]
    split <;> exact ⟨Nat.le_refl _, Nat.le_succ _⟩
  | backspace =>
    simp only [handleKey]
    split <;> exact ⟨Nat.le_refl _, Nat.le_succ _⟩
  | esc =>
    simp only [handleKey]
    exact ⟨Nat.le_refl _, Nat.le_succ _⟩
  | other =>
    simp only [handleKey]
    exact ⟨Nat.le_refl _, Nat.le_succ _⟩

/-- The concrete event sequence used to drive the wizard from the welcome
step to the summary step: every confirm is valid (non-empty buffers on
text steps, in-range list selections provided by the draw pass). -/
def c3Events : List WEvent :=
  [.enter,
   .enter, .charKey 'a', .enter,
   .enter, .charKey 'b', .enter,
   .enter, .charKey 'c', .enter,
   .enter, .enter, .enter, .enter,
   .enter, .charKey 'd', .enter,
   .enter, .charKey 'h', .enter,
   .enter, .enter]

end MainEd

namespace MainEd

/-- The number of confirm (Enter) events in an input sequence. -/
def enterCount (evs : List WEvent) : Nat :=
  (evs.filter fun e => decide (e = WEvent.enter)).length

/-- The confirms the wizard still owes before a state can leave the text
steps behind: one for each text-entry step (1, 2, 3, 8, 9) strictly ahead
of the current step — entering such a step always costs an extra
activating Enter before the committing one — plus one when the wizard
currently sits on a text step whose input is not yet active. -/
def pendingActivations (s : WState) : Nat :=
  ((if s.current_step < 1 then 1 else 0) + (if s.current_step < 2 then 1 else 0)
      + (if s.current_step < 3 then 1 else 0) + (if s.current_step < 8 then 1 else 0)
      + (if s.current_step < 9 then 1 else 0))
    + (if s.active_input then 0
       else if s.current_step = 1 ∨ s.current_step = 2 ∨ s.current_step = 3
              ∨ s.current_step = 8 ∨ s.current_step = 9 then 1 else 0)

/-- Confirm-potential of a wizard state: distance to the summary step plus
the activation debt.  Each Enter event lowers it by at most one and no
other event lowers it, so its initial value 17 bounds from below the
number of confirms any run needs to reach the summary step. -/
def phi (s : WState) : Nat :=
  (12 - s.current_step) + pendingActivations s

theorem phi_drawFix (s : WState) : phi (drawFix s) = phi s := by
  unfold drawFix
  split <;> rfl

theorem drawFix_active (s : WState) : (drawFix s).active_input = s.active_input := by
  unfold drawFix
  split <;> rfl

theorem phi_of_ge13 (s : WState) (hs : 13 ≤ s.current_step) : phi s = 0 := by
  unfold phi pendingActivations
  split_ifs <;> omega

set_option maxHeartbeats 1000000 in
theorem phi_selEnter (t : WState) (h : t.active_input = false) :
    phi t ≤ phi (handleSelectionEnter t) + 1 := by
  by_cases hc : t.current_step ≤ 12
  · obtain ⟨c, u, pw, rpw, hn, ed, br, fs, mp, dk, pv, q, em, tz, lc, ls, ai, ib⟩ := t
    simp only at h hc
    subst h
    interval_cases c
    all_goals simp [handleSelectionEnter, phi, pendingActivations]
    all_goals repeat' split
    all_goals simp_all
  · have h13 : 13 ≤ t.current_step := by omega
    rw [phi_of_ge13 t h13,
      phi_of_ge13 (handleSelectionEnter t) (le_trans h13 (selEnter_step t).1)]
    omega

set_option maxHeartbeats 1000000 in
theorem phi_inputEnter (t : WState) (h : t.active_input = true) :
    phi t ≤ phi (handleInputEnter t) + 1 := by
  rcases eq_or_ne t.input_buffer "" with hib | hib
  · have hid : handleInputEnter t = t := by
      simp [handleInputEnter, hib]
    rw [hid]
    exact Nat.le_succ _
  · by_cases hc : t.current_step ≤ 12
    · obtain ⟨c, u, pw, rpw, hn, ed, br, fs, mp, dk, pv, q, em, tz, lc, ls, ai, ib⟩ := t
      simp only at h hc hib
      subst h
      interval_cases c
      all_goals simp [handleInputEnter, phi, pendingActivations, hib]
    · have h13 : 13 ≤ t.current_step := by omega
      rw [phi_of_ge13 t h13,
        phi_of_ge13 (handleInputEnter t) (le_trans h13 (inputEnter_step t).1)]
      omega

theorem phi_nonEnter (e : WEvent) (t : WState) (h : e ≠ WEvent.enter) :
    phi t ≤ phi (handleKey e t) := by
  cases e with
  | enter => exact absurd rfl h
  | ctrlQ => simp [handleKey, phi, pendingActivations]
  | up =>
    simp only [handleKey]
    split <;> simp [phi, pendingActivations]
  | down =>
    simp only [handleKey]
    split <;> simp [phi, pendingActivations]
  | charKey c =>
    simp only [handleKey]
    split <;> simp [phi, pendingActivations]
  | backspace =>
    simp only [handleKey]
    split <;> simp [phi, pendingActivations]
  | esc =>
    simp [handleKey, phi, pendingActivations]
    split_ifs <;> omega
  | other => simp [handleKey]

theorem phi_wStep_enter (s : WState) :
    phi s ≤ phi (wStep WEvent.enter s) + 1 := by
  unfold wStep
  rw [← phi_drawFix s]
  simp only [handleKey]
  split
  · exact phi_inputEnter _ (by assumption)
  · refine phi_selEnter _ ?_
    simp_all

theorem phi_wStep_nonEnter (e : WEvent) (s : WState) (h : e ≠ WEvent.enter) :
    phi s ≤ phi (wStep e s) := by
  unfold wStep
  rw [← phi_drawFix s]
  exact phi_nonEnter e _ h

theorem phi_wRun (evs : List WEvent) :
    ∀ s : WState, phi s ≤ phi (wRun s evs) + enterCount evs := by
  induction evs with
  | nil =>
    intro s
    simp [wRun, enterCount]
  | cons e rest ih =>
    intro s
    have hrun : wRun s (e :: rest) = wRun (wStep e s) rest := rfl
    by_cases he : e = WEvent.enter
    · subst he
      have h1 := phi_wStep_enter s
      have h2 := ih (wStep WEvent.enter s)
      have hcount : enterCount (WEvent.enter :: rest) = enterCount rest + 1 := by
        simp [enterCount, List.filter]
      rw [hrun, hcount]
      omega
    · have h1 := phi_wStep_nonEnter e s he
      have h2 := ih (wStep e s)
      have hcount : enterCount (e :: rest) = enterCount rest := by
        simp [enterCount, List.filter, decide_eq_false he]
      rw [hrun, hcount]
      omega

end MainEd

/-- C3 counterexample: no sequence of input events containing at most 12
confirm (Enter) events — the claim's bound of required fields plus
conditional skips, on any counting 11 or 12 — brings the initial wizard
state to the summary step 12: each text-entry step costs an activating
Enter on top of its committing Enter, so at least 17 confirms are
needed. -/
theorem C3_counterexample_confirm_count :
    ¬ ∃ evs : List MainEd.WEvent,
        MainEd.enterCount evs ≤ 12
        ∧ (MainEd.wRun MainEd.wInit evs).current_step = 12 := by
  rintro ⟨evs, hcount, hstep⟩
  have hrun := MainEd.phi_wRun evs MainEd.wInit
  have hinit : MainEd.phi MainEd.wInit = 17 := by decide
  have hfin : MainEd.phi (MainEd.wRun MainEd.wInit evs) = 0 := by
    simp [MainEd.phi, MainEd.pendingActivations, hstep]
  omega

set_option maxRecDepth 8000 in
/-- C3 amended: under every input event the wizard step is monotonically
non-decreasing and advances by at most one; every event sequence reaching
the summary step 12 from the initial state contains at least 17 confirm
(Enter) events — 12 step-advancing confirms (one per wizard step, the
conditional filesystem skip still consuming one) plus 5 input-activation
confirms for the five text-entry steps — and a concrete valid sequence
with exactly 17 confirms reaches it. -/
theorem C3_monotone_and_summary_confirm_bound :
    (∀ (s : MainEd.WState) (e : MainEd.WEvent),
      s.current_step ≤ (MainEd.wStep e s).current_step
        ∧ (MainEd.wStep e s).current_step ≤ s.current_step + 1)
    ∧ (∀ evs : List MainEd.WEvent,
        (MainEd.wRun MainEd.wInit evs).current_step = 12 →
        17 ≤ MainEd.enterCount evs)
    ∧ (MainEd.wRun MainEd.wInit MainEd.c3Events).current_step = 12
    ∧ MainEd.enterCount MainEd.c3Events = 17 := by
  refine ⟨?_, ?_, by decide, by decide⟩
  · intro s e
    have h := MainEd.handleKey_step e (MainEd.drawFix s)
    rw [MainEd.drawFix_step] at h
    exact h
  · intro evs hstep
    have hrun := MainEd.phi_wRun evs MainEd.wInit
    have hinit : MainEd.phi MainEd.wInit = 17 := by decide
    have hfin : MainEd.phi (MainEd.wRun MainEd.wInit evs) = 0 := by
      simp [MainEd.phi, MainEd.pendingActivations, hstep]
    omega

set_option maxRecDepth 8000 in
/-- Witness for the amended C3: the concrete 17-confirm sequence reaches
the summary step, so the lower bound is attained. -/
theorem C3_monotone_and_summary_confirm_bound_witness :
    (MainEd.wRun MainEd.wInit MainEd.c3Events).current_step = 12
    ∧ 17 ≤ MainEd.enterCount MainEd.c3Events :=
  ⟨by decide,
   C3_monotone_and_summary_confirm_bound.2.1 MainEd.c3Events (by decide)⟩

/-- C9: a confirm on the hostname step (step 9) with an empty input buffer
does not set the hostname default and does not advance — the outer
non-empty guard of `handle_input_enter` makes the inner empty-buffer
default branch dead code, so the state is left completely unchanged,
contradicting the claimed fallback-and-advance behaviour. -/
theorem C9_empty_hostname_confirm_ignored :
    MainEd.wStep MainEd.WEvent.enter
        { MainEd.wInit with current_step := 9, active_input := true }
      = { MainEd.wInit with current_step := 9, active_input := true }
    ∧ ({ MainEd.wInit with current_step := 9, active_input := true } : MainEd.WState).current_step = 9
    ∧ ({ MainEd.wInit with current_step := 9, active_input := true } : MainEd.WState).input_buffer = "" := by
  exact ⟨rfl, rfl, rfl⟩

namespace Gaming

/-- The `rsync` copy of the live system into the target
(`perform_installation`, lines 564-578). -/
def rsyncOp (mnt : String) : Op :=
  { prog := "rsync",
    args := ["-aAXv", "--exclude=/dev/*", "--exclude=/proc/*", "--exclude=/sys/*",
             "--exclude=/tmp/*", "--exclude=/run/*", "--exclude=/mnt/*",
             "--exclude=/media/*", "--exclude=/lost+found", "/", mnt] }

/-- The virtual filesystems bind-mounted into the target (line 582). -/
def bindDirs : List String := ["/dev", "/proc", "/sys", "/run"]

/-- The four `mount --bind` operations (lines 583-587). -/
def bindMountOps (mnt : String) : List Op :=
  bindDirs.map fun b => { prog := "mount", args := ["--bind", b, mnt ++ b] }

/-- The unbinding `umount`s in reverse bind order (lines 659-663). -/
def unbindOps (mnt : String) : List Op :=
  bindDirs.reverse.map fun b => { prog := "umount", args := [mnt ++ b] }

/-- The in-target user-account shell command (lines 599-602):
`format!("useradd -m {} && echo '{}:{}' | chpasswd", username, username,
password)` — the wizard password is interpolated into the command text. -/
def gUserCmd (u p : String) : String :=
  "useradd -m " ++ u ++ " && echo \x27" ++ u ++ ":" ++ p ++ "\x27 | chpasswd"

/-- The in-target timezone command (lines 605-608). -/
def gTimezoneCmd (tz : String) : String :=
  "echo \x27" ++ tz ++ "\x27 > /etc/timezone && ln -sf /usr/share/zoneinfo/" ++ tz
    ++ " /etc/localtime"

/-- The desktop-environment branch of `perform_installation`
(lines 611-620); an unknown value issues nothing. -/
def desktopOps (mnt de : String) : List Op :=
  if de == "kde" then [gChroot mnt "apt install -y plasma-desktop"]
  else if de == "gnome" then [gChroot mnt "apt install -y gdm3 gnome-desktop"]
  else if de == "hydra" then
    [gChroot mnt "apt install -y plasma-desktop",
     gChroot mnt "git clone https://github.com/HackerOS-Linux-System/hydra-look-and-feel.git /tmp/hydra-look-and-feel",
     gChroot mnt "cp -r /tmp/hydra-look-and-feel/files/* /"]
  else []

/-- Outcome of a completed gaming `perform_installation` run: each issued
operation paired with the exit outcome the oracle assigned to it, the
progress markers in append order, the stored detection results, and
whether the terminal `Done` step was reached. -/
structure GInstallResult where
  ops : List (Op × Bool)
  progress : List String
  gpu_type : String
  kernel_type : String
  doneReached : Bool
deriving Repr, DecidableEq

/-- Pair each issued operation with its exit outcome, positionally. -/
def attachOutcomes (outcome : Nat → Bool) (ops : List Op) : List (Op × Bool) :=
  ops.enum.map fun p => (p.2, outcome p.1)

/-- `perform_installation` (gaming edition, lines 560-672).  Every command
is run with `.output()?` and its exit status is discarded, so the set of
issued operations, the progress markers and the reached step do not depend
on the outcome oracle; outcomes are only recorded in the trace.  The file
reads inside `install_kernel` are the one failure source the `?` operator
propagates in this model (the partially issued trace is not recorded on
that path); `fs::create_dir_all` host writes are not modelled.  In the
source the marker file is read mid-run; hoisting the read to the front
only affects the failure path. -/
def perform_installation (s : GState) (outcome : Nat → Bool)
    (lspci : String) (markerFile cpuFile : Option String) :
    Except String GInstallResult := do
  let gpu := detect_and_install_gpu s.mount_point lspci
  let kern ← install_kernel s.mount_point markerFile cpuFile
  let rawOps : List Op :=
    rsyncOp s.mount_point :: bindMountOps s.mount_point
      ++ [gChroot s.mount_point (gUserCmd s.username s.password),
          gChroot s.mount_point (gTimezoneCmd s.timezone)]
      ++ desktopOps s.mount_point s.desktop_env
      ++ [gChroot s.mount_point "HackerOS-Steam create",
          gChroot s.mount_point "git clone https://github.com/HackerOS-Linux-System/gamescope-session-steam.git /tmp/gamescope-session-steam",
          gChroot s.mount_point "hl run /tmp/gamescope-session-steam/unpack.hacker",
          gChroot s.mount_point "cp -r /usr/share/HackerOS/Archived/icons/ /usr/share/",
          gChroot s.mount_point "rm -rf /usr/share/HackerOS/Archived/icons/"]
      ++ gpu.1 ++ kern.ops
      ++ [gChroot s.mount_point (gBootCmd s.is_uefi s.target_disk),
          gChroot s.mount_point "grub-mkconfig -o /boot/grub/grub.cfg"]
      ++ unbindOps s.mount_point
      ++ [{ prog := "umount", args := ["-R", s.mount_point] }]
  pure { ops := attachOutcomes outcome rawOps,
         progress :=
           ["Starting installation...", "Base system copied.", "User created.",
            "Locale set.", "Desktop installed.", "HackerOS-Steam created.",
            "Gamescope installed.", "Icons copied."]
             ++ gpu.2.1 ++ kern.progress
             ++ ["Installing bootloader.", "Bootloader installed.", "Installation finalized."],
         gpu_type := gpu.2.2,
         kernel_type := kern.kernel_type,
         doneReached := true }

/-- The concrete gaming state used to refute the abort-on-failure claim. -/
def c1State : GState :=
  { username := "alice", password := "pw", is_uefi := true,
    target_disk := "/dev/sda", desktop_env := "kde" }

/-- The concrete run: every external operation returns a failing outcome. -/
def c1Run : Except String GInstallResult :=
  perform_installation c1State (fun _ => false) "Intel Corporation UHD"
    (some "no marker here") none

end Gaming

/-- C1 counterexample: a gaming-edition run in which every external
operation (the first, `rsync`, included) returns a failing outcome still
issues all 22 operations of the later phases, appends every phase's
progress marker, records no error (the state has no error field and the
run succeeds), and ends with the terminal `Done` step reached — refuting
stop-on-failure, the missing markers, the recorded error and the `Failed`
terminal state all at once. -/
theorem C1_counterexample_failures_ignored :
    (Gaming.c1Run.map fun r =>
        (r.ops.headD ({ prog := "", args := [] }, true)).1.prog) = Except.ok "rsync"
    ∧ (Gaming.c1Run.map fun r =>
        (r.ops.headD ({ prog := "", args := [] }, true)).2) = Except.ok false
    ∧ (Gaming.c1Run.map fun r => r.ops.length) = Except.ok 22
    ∧ (Gaming.c1Run.map fun r => r.progress) = Except.ok
        ["Starting installation...", "Base system copied.", "User created.",
         "Locale set.", "Desktop installed.", "HackerOS-Steam created.",
         "Gamescope installed.", "Icons copied.", "Detected Intel GPU.",
         "GPU drivers installed.", "Kernel installed.", "Installing bootloader.",
         "Bootloader installed.", "Installation finalized."]
    ∧ (Gaming.c1Run.map fun r => r.doneReached) = Except.ok true := by
  exact ⟨rfl, rfl, rfl, rfl, rfl⟩

namespace MainEd

/-- One main-edition pipeline step: the operation and whether the source
checks its exit status (`perform_installation`'s `chroot_cmd` closure,
lines 603-614, checks `.status()?.success()` and fails the run; every
other command only gets `.status()?` / `child.wait()?`, which discards a
non-zero exit). -/
structure MStep where
  op : Op
  checked : Bool
deriving Repr, DecidableEq

/-- A placeholder step for out-of-range index defaults. -/
def dummyStep : MStep :=
  { op := { prog := "", args := [] }, checked := false }

/-- `chroot /mnt /bin/bash -c <cmd>` issued through the checking
`chroot_cmd` closure of `perform_installation`. -/
def mChroot (cmd : String) : MStep :=
  { op := { prog := "chroot", args := ["/mnt", "/bin/bash", "-c", cmd] }, checked := true }

/-- The same chroot shape issued through `install_edition`'s local closure
(lines 670-677), which returns the raw `status()` result — its exit code
is never inspected. -/
def mChrootU (cmd : String) : MStep :=
  { op := { prog := "chroot", args := ["/mnt", "/bin/bash", "-c", cmd] }, checked := false }

/-- An operation whose exit status the source discards. -/
def unchecked (o : Op) : MStep :=
  { op := o, checked := false }

/-- The automatic-partitioning layout piped to `sfdisk` (line 561). -/
def sfdiskInput : String := "label: gpt\n,512M,U\n,,L\n"

/-- The suite name of each Debian branch (lines 541-545). -/
def branchStr : DebianBranch → String
  | .Stable => "trixie"
  | .Testing => "forky"
  | .Unstable => "sid"

/-- The format command string of each filesystem (lines 575-579). -/
def fsCmd : Filesystem → String
  | .Btrfs => "mkfs.btrfs -f"
  | .Ext4 => "mkfs.ext4"
  | .Zfs => "zpool create -f hackeros"

/-- A `reqwest` download (`download_file`) of `url` to `path`, modelled as
an unchecked external operation (a network failure would abort the run via
`?`; downloads are modelled as succeeding, as the claims under study
concern process exit outcomes). -/
def downloadOp (url path : String) : MStep :=
  unchecked { prog := "download", args := [url, path] }

/-- `chroot /mnt chmod +x <path>` as spawned directly in
`install_edition`; its status is discarded. -/
def chmodOp (path : String) : MStep :=
  unchecked { prog := "chroot", args := ["/mnt", "chmod", "+x", path] }

/-- The Blue edition component names and download URLs (lines 695-702). -/
def blueComponents : List (String × String) :=
  [("wm", "https://github.com/HackerOS-Linux-System/Blue-Environment/releases/download/v0.1/wm"),
   ("shell", "https://github.com/HackerOS-Linux-System/Blue-Environment/releases/download/v0.1/shell"),
   ("launcher", "https://github.com/HackerOS-Linux-System/Blue-Environment/releases/download/v0.1/launcher"),
   ("Desktop", "https://github.com/HackerOS-Linux-System/Blue-Environment/releases/download/v0.1/Desktop"),
   ("decorations", "https://github.com/HackerOS-Linux-System/Blue-Environment/releases/download/v0.1/decorations"),
   ("core", "https://github.com/HackerOS-Linux-System/Blue-Environment/releases/download/v0.1/core")]

/-- The hammer component names and download URLs of the Atomic edition
(lines 729-734); the file name is the last URL segment. -/
def hammerComponents : List (String × String) :=
  [("hammer-updater", "https://github.com/HackerOS-Linux-System/hammer/releases/download/v0.5/hammer-updater"),
   ("hammer-tui", "https://github.com/HackerOS-Linux-System/hammer/releases/download/v0.5/hammer-tui"),
   ("hammer-core", "https://github.com/HackerOS-Linux-System/hammer/releases/download/v0.5/hammer-core"),
   ("hammer-builder", "https://github.com/HackerOS-Linux-System/hammer/releases/download/v0.5/hammer-builder")]

/-- `install_edition` (src/main.rs, lines 669-746) as the list of external
operations it issues, per edition.  Host filesystem work (`copy_dir`,
`create_dir_all`, `remove_dir_all`) and the `git2` library clone of the
Hydra edition are in-process effects, not spawned commands, and are not
listed. -/
def editionSteps (ed : Edition) (u : String) : List MStep :=
  match ed with
  | .Official => [mChrootU "apt install -y task-kde-desktop sddm"]
  | .Gnome => [mChrootU "apt install -y task-gnome-desktop gdm3"]
  | .Xfce => [mChrootU "apt install -y task-xfce-desktop lightdm"]
  | .Blue =>
      ((blueComponents.map fun p =>
          [downloadOp p.2 ("/mnt/home/" ++ u ++ "/.hackeros/Blue-Environment/" ++ "/" ++ p.1),
           chmodOp ("/home/" ++ u ++ "/.hackeros/Blue-Environment/" ++ p.1)]).flatten)
        ++ [downloadOp "https://github.com/HackerOS-Linux-System/Blue-Environment/releases/download/v0.1/Blue-Environment" "/mnt/usr/bin/Blue-Environment",
            chmodOp "/usr/bin/Blue-Environment",
            downloadOp "https://raw.githubusercontent.com/HackerOS-Linux-System/Blue-Environment/main/Blue-Environment.desktop" "/mnt/usr/share/wayland-sessions/Blue-Environment.desktop",
            mChrootU "apt install -y sddm wayland"]
  | .Hydra => []
  | .Cybersecurity => [mChrootU "apt install -y nmap wireshark metasploit-framework burpsuite"]
  | .Wayfire => [mChrootU "apt install -y wayfire sddm"]
  | .Atomic =>
      [downloadOp "https://github.com/HackerOS-Linux-System/hammer/releases/download/v0.5/hammer" "/mnt/usr/bin/hammer",
       chmodOp "/usr/bin/hammer"]
        ++ ((hammerComponents.map fun p =>
              [downloadOp p.2 ("/mnt/usr/lib/HackerOS/hammer/" ++ p.1),
               chmodOp ("/usr/lib/HackerOS/hammer/" ++ p.1)]).flatten)
        ++ [mChrootU "apt install -y task-kde-desktop sddm", mChrootU "hammer setup"]

/-- The pipeline inputs after the wizard's `unwrap()`s: the `Option`-typed
`edition`, `branch` and `filesystem` fields are unwrapped by
`perform_installation`, which is only invoked on a fully populated
state. -/
structure MConf where
  username : String
  password : String
  root_password : String
  hostname : String
  edition : Edition
  branch : DebianBranch
  filesystem : Filesystem
  manual_partition : Bool
  disk : String
  timezone : String
  locale : String
deriving Repr, DecidableEq

/-- `perform_installation` (src/main.rs, lines 537-667) as its ordered list
of external operations, each flagged with whether its exit status is
checked.  Host filesystem writes (`sources.list`, hostname, hosts,
`create_dir_all`, removal of the installer files) are in-process effects
and are not listed. -/
def mSteps (c : MConf) : List MStep :=
  [unchecked { prog := "apt", args := ["update", "-y"] }]
    ++ (if c.manual_partition then
          [unchecked { prog := "cfdisk", args := [c.disk] }]
        else
          [unchecked { prog := "sfdisk", args := [c.disk], stdinData := some sfdiskInput }])
    ++ [unchecked { prog := "mkfs.fat", args := ["-F32", c.disk ++ "1"] },
        unchecked { prog := "sh", args := ["-c", fsCmd c.filesystem ++ " " ++ (c.disk ++ "2")] },
        unchecked { prog := "mount", args := [c.disk ++ "2", "/mnt"] },
        unchecked { prog := "mount", args := [c.disk ++ "1", "/mnt/boot/efi"] },
        unchecked { prog := "debootstrap",
                    args := [branchStr c.branch, "/mnt", "http://deb.debian.org/debian/"] }]
    ++ (["/dev", "/proc", "/sys", "/run"].map fun d =>
          unchecked { prog := "mount", args := ["--bind", d, "/mnt" ++ d] })
    ++ [mChroot "apt update -y",
        mChroot "apt install -y linux-image-amd64 grub-efi-amd64 sudo locales tzdata",
        mChroot ("echo \x27" ++ c.locale ++ "\x27 > /etc/locale.gen"),
        mChroot "locale-gen",
        mChroot ("ln -sf /usr/share/zoneinfo/" ++ c.timezone ++ " /etc/localtime"),
        mChroot "hwclock --systohc",
        mChroot "passwd root",
        unchecked { prog := "chroot", args := ["/mnt", "passwd", "root"],
                    stdinData := some (c.root_password ++ "\n" ++ c.root_password ++ "\n") },
        mChroot ("useradd -m -G sudo,wheel,audio,video -s /bin/bash " ++ c.username),
        unchecked { prog := "chroot", args := ["/mnt", "passwd", c.username],
                    stdinData := some (c.password ++ "\n" ++ c.password ++ "\n") }]
    ++ editionSteps c.edition c.username
    ++ [mChroot ("grub-install --target=x86_64-efi --efi-directory=/boot/efi --bootloader-id=HackerOS " ++ c.disk),
        mChroot "update-grub"]
    ++ (["/dev/pts", "/dev", "/proc", "/sys", "/run"].map fun d =>
          unchecked { prog := "umount", args := ["/mnt" ++ d] })
    ++ [unchecked { prog := "umount", args := ["/mnt/boot/efi"] },
        unchecked { prog := "umount", args := ["/mnt"] },
        unchecked { prog := "reboot", args := [] }]

/-- The failure description `chroot_cmd` produces:
`anyhow!("Command failed: {}", cmd)`, where `cmd` is the shell text
(argument index 3 of the chroot operation). -/
def failMsg (o : Op) : String :=
  "Command failed: " ++ o.args.getD 3 ""

/-- Execute pipeline steps in order against an outcome oracle indexed by
issue position: a checked step whose outcome is non-success stops the run
with its failure description; all other failures are discarded.  Returns
the issued operations and the optional error. -/
def runSteps (outcome : Nat → Bool) : Nat → List MStep → List Op × Option String
  | _, [] => ([], none)
  | k, st :: rest =>
      if st.checked && !(outcome k) then
        ([st.op], some (failMsg st.op))
      else
        let r := runSteps outcome (k + 1) rest
        (st.op :: r.1, r.2)

theorem failMsg_ne_empty (o : Op) : failMsg o ≠ "" := by
  intro h
  have h2 : ("Command failed: ".data ++ (o.args.getD 3 "").data).length
      = ([] : List Char).length := by
    have hd : (failMsg o).data = "Command failed: ".data ++ (o.args.getD 3 "").data := rfl
    rw [← hd, h]
  rw [List.length_append] at h2
  have h3 : "Command failed: ".data.length = 16 := rfl
  have h4 : ([] : List Char).length = 0 := rfl
  omega

theorem runSteps_first_failure (outcome : Nat → Bool) :
    ∀ (steps : List MStep) (k i : Nat),
      i < steps.length →
      (steps.getD i dummyStep).checked = true →
      outcome (k + i) = false →
      (∀ j, j < i → (steps.getD j dummyStep).checked = true → outcome (k + j) = true) →
      runSteps outcome k steps
        = ((steps.take (i + 1)).map MStep.op, some (failMsg (steps.getD i dummyStep).op)) := by
  intro steps
  induction steps with
  | nil =>
    intro k i hi
    simp at hi
  | cons st rest ih =>
    intro k i hi hc hf hpre
    cases i with
    | zero =>
      have hc0 : st.checked = true := hc
      have hf0 : outcome k = false := by simpa using hf
      simp [runSteps, hc0, hf0, List.getD]
    | succ j =>
      have hhead : (st.checked && !(outcome k)) = false := by
        cases hch : st.checked with
        | false => simp
        | true =>
          have h0 := hpre 0 (Nat.succ_pos j) (by simpa [List.getD] using hch)
          have h0k : outcome k = true := by simpa using h0
          simp [h0k]
      have hrest := ih (k + 1) j (by simpa using hi)
        (by simpa [List.getD] using hc)
        (by have : k + 1 + j = k + (j + 1) := by omega
            rw [this]
            exact hf)
        (by intro j2 hj2 hcj2
            have : k + 1 + j2 = k + (j2 + 1) := by omega
            rw [this]
            exact hpre (j2 + 1) (by omega) (by simpa [List.getD] using hcj2))
      simp only [runSteps, hhead, Bool.false_eq_true, if_false]
      rw [hrest]
      simp [List.getD]

end MainEd

/-- C1 amended: in the main edition pipeline, when an operation issued
through the status-checking chroot helper returns the first failing
outcome among checked operations, the run stops there — exactly the steps
up to and including it are issued, no later phase's operation runs — and
the non-empty description `Command failed: <cmd>` is recorded as the
error; exit outcomes of the unchecked operations (disk, mount, bootstrap,
the spawned `passwd` processes) and of every gaming-edition operation do
not stop their pipeline. -/
theorem C1_main_abort_on_checked_failure (c : MainEd.MConf)
    (outcome : Nat → Bool) (i : Nat)
    (hi : i < (MainEd.mSteps c).length)
    (hc : ((MainEd.mSteps c).getD i MainEd.dummyStep).checked = true)
    (hf : outcome i = false)
    (hpre : ∀ j, j < i →
      ((MainEd.mSteps c).getD j MainEd.dummyStep).checked = true → outcome j = true) :
    MainEd.runSteps outcome 0 (MainEd.mSteps c)
      = (((MainEd.mSteps c).take (i + 1)).map MainEd.MStep.op,
         some (MainEd.failMsg ((MainEd.mSteps c).getD i MainEd.dummyStep).op))
    ∧ MainEd.failMsg ((MainEd.mSteps c).getD i MainEd.dummyStep).op ≠ "" := by
  constructor
  · refine MainEd.runSteps_first_failure outcome (MainEd.mSteps c) 0 i hi hc ?_ ?_
    · simpa using hf
    · intro j hj hcj
      simpa using hpre j hj hcj
  · exact MainEd.failMsg_ne_empty _

/-- The concrete pipeline configuration used for the C1 and C4
witnesses. -/
def mainSampleConf : MainEd.MConf :=
  { username := "alice", password := "pw", root_password := "rootpw",
    hostname := "hackeros", edition := MainEd.Edition.Official,
    branch := MainEd.DebianBranch.Stable, filesystem := MainEd.Filesystem.Ext4,
    manual_partition := false, disk := "/dev/sda", timezone := "UTC",
    locale := "en_US.UTF-8" }

/-- An outcome oracle failing exactly the twelfth issued operation — the
first checked one (`chroot /mnt /bin/bash -c "apt update -y"`). -/
def mainSampleOracle : Nat → Bool := fun k => k != 11

/-- Witness for the amended C1 at the concrete configuration and oracle. -/
theorem C1_main_abort_on_checked_failure_witness :
    (11 < (MainEd.mSteps mainSampleConf).length
      ∧ ((MainEd.mSteps mainSampleConf).getD 11 MainEd.dummyStep).checked = true
      ∧ mainSampleOracle 11 = false
      ∧ (∀ j, j < 11 →
          ((MainEd.mSteps mainSampleConf).getD j MainEd.dummyStep).checked = true →
          mainSampleOracle j = true))
    ∧ (MainEd.runSteps mainSampleOracle 0 (MainEd.mSteps mainSampleConf)
        = (((MainEd.mSteps mainSampleConf).take 12).map MainEd.MStep.op,
           some (MainEd.failMsg ((MainEd.mSteps mainSampleConf).getD 11 MainEd.dummyStep).op))
      ∧ MainEd.failMsg ((MainEd.mSteps mainSampleConf).getD 11 MainEd.dummyStep).op ≠ "") :=
  ⟨⟨by decide, by decide, by decide, by decide⟩,
   C1_main_abort_on_checked_failure mainSampleConf mainSampleOracle 11
     (by decide) (by decide) (by decide) (by decide)⟩

/-- C4: in the gaming edition's in-target user-account configuration the
wizard password is carried in the argument text of the issued chroot
operation (and not on its stdin), whereas in the main edition the argument
texts of all pipeline operations are invariant under any change of the
user and root passwords — password material reaches only the stdin payload
of the spawned `passwd` operations. -/
theorem C4_password_channel :
    strContains
        ((Gaming.gChroot "/mnt" (Gaming.gUserCmd "alice" "secretpw")).args.getD 3 "")
        "secretpw" = true
    ∧ (Gaming.gChroot "/mnt" (Gaming.gUserCmd "alice" "secretpw")).stdinData = none
    ∧ Gaming.gUserCmd "alice" "pw1" ≠ Gaming.gUserCmd "alice" "pw2"
    ∧ (∀ (p1 p2 r1 r2 : String) (c : MainEd.MConf),
        (MainEd.mSteps { c with password := p1, root_password := r1 }).map
            (fun st => (st.op.prog, st.op.args))
          = (MainEd.mSteps { c with password := p2, root_password := r2 }).map
            (fun st => (st.op.prog, st.op.args)))
    ∧ ((MainEd.mSteps { mainSampleConf with password := "secretpw" }).getD 20
          MainEd.dummyStep).op
        = { prog := "chroot", args := ["/mnt", "passwd", "alice"],
            stdinData := some "secretpw\nsecretpw\n" } := by
  refine ⟨by decide, rfl, by decide, ?_, by decide⟩
  intro p1 p2 r1 r2 c
  obtain ⟨u, pw, rpw, hn, ed, br, fs, mp, dk, tz, lc⟩ := c
  cases mp <;> cases ed <;> rfl
